import Mathlib

/-!
# Verification of the TXI dashboard fan-out handler

Shallow embedding of `src/api/txi-dashboard.js` (the "Canonical Exec Template"
variant of the TXI leadership-console handler) together with the template-guard
logic of the hardened variant of the same handler (`src/unnamed/part_007`,
`looksLikeCanonicalTemplate`).

Modelling conventions:
* JavaScript's loosely typed values are embedded as the inductive `JsVal`.
  JS numbers are modelled as integers (`ℤ`); every numeric constant appearing
  in the handler (thresholds 30/45/50/75/250000, counts, amounts in whole
  dollars, millisecond timestamps) is integral, so integer arithmetic is exact
  for everything the theorems below talk about.  The non-finite results of
  `Number(...)` (NaN/Infinity) are modelled by `Option.none` / `JsVal.vnan`.
  String-to-number coercion is modelled for integer literals (the only form
  the handler's data can carry through `safeNumber`).
* Promises are embedded as explicit outcomes: a resolved value or a rejection
  carrying the error message.  `async` functions become functions returning
  `Except String α`; `await` of a rejecting promise propagates the `.error`
  exactly when the source has no enclosing `try`/`catch`.
* The network is an explicit input: each `fetch` call site receives a
  `FetchOutcome` (the call rejecting, or a response with status/body), and the
  Salesforce SDK calls receive their outcomes as `Except`/`QueryOutcome`
  values.  `Date` parsing is an explicit input function `dateMs`.
-/

/-- JavaScript values, as far as the handler manipulates them.  `vnan` stands
for any non-finite number (NaN/Infinity), which `Number.isFinite` rejects. -/
inductive JsVal where
  | vnull : JsVal
  | vundefined : JsVal
  | vnan : JsVal
  | vbool : Bool → JsVal
  | vnum : ℤ → JsVal
  | vstr : String → JsVal
  | varr : List JsVal → JsVal
  | vobj : List (String × JsVal) → JsVal

/-- JS truthiness: `false`, `0`, `""`, `null`, `undefined`, `NaN` are falsy. -/
def jsTruthy : JsVal → Bool
  | .vnull => false
  | .vundefined => false
  | .vnan => false
  | .vbool b => b
  | .vnum n => n != 0
  | .vstr s => s != ""
  | .varr _ => true
  | .vobj _ => true

/-- Property read `v.name` for a read that cannot throw: either the source
guards it (optional chaining, a preceding `|| {}` default) or its base is
known non-nullish.  On any non-object — including a primitive, whose property
reads yield `undefined` in JS via boxing — it yields `undefined`.  The one
**unguarded** read on a possibly nullish base in the embedded code (the
`x.priority` read inside the `find` callbacks) is modelled separately by
`getFieldThrows`, which throws exactly where JS does. -/
def getField (v : JsVal) (name : String) : JsVal :=
  match v with
  | .vobj fields =>
    match fields.find? (fun p => p.1 == name) with
    | some p => p.2
    | none => .vundefined
  | _ => .vundefined

/-- The JS `||` operator on values (returns the right operand when the left is
falsy). -/
def jsOr (v d : JsVal) : JsVal :=
  if jsTruthy v then v else d

/-- The JS `??` operator (returns the right operand when the left is
`null`/`undefined`). -/
def jsCoalesce (v d : JsVal) : JsVal :=
  match v with
  | .vnull => d
  | .vundefined => d
  | _ => v

/-- `Array.isArray(v) ? v : []`. -/
def asArray : JsVal → List JsVal
  | .varr l => l
  | _ => []

/-- ASCII lower-casing of one character (the substring checks in the source
only involve ASCII text). -/
def asciiLowerChar (c : Char) : Char :=
  if 'A' ≤ c ∧ c ≤ 'Z' then Char.ofNat (c.toNat + 32) else c

/-- `String.prototype.toLowerCase`, restricted to ASCII. -/
def asciiLower (s : String) : String :=
  ⟨s.data.map asciiLowerChar⟩

/-- `String.prototype.trim`. -/
def strTrim (s : String) : String :=
  ⟨((s.data.dropWhile Char.isWhitespace).reverse.dropWhile Char.isWhitespace).reverse⟩

/-- Helper for substring search: does `p` occur as a contiguous run in `l`? -/
def containsSeq (p : List Char) : List Char → Bool
  | [] => p.isEmpty
  | c :: rest => p.isPrefixOf (c :: rest) || containsSeq p rest

/-- `String.prototype.includes`. -/
def strIncludes (s pat : String) : Bool :=
  containsSeq pat.data s.data

/-- `String.prototype.startsWith`. -/
def strStartsWith (s pat : String) : Bool :=
  pat.data.isPrefixOf s.data

/-- `s.split("\n")[0]`. -/
def firstLineOf (s : String) : String :=
  ⟨s.data.takeWhile (fun c => c != '\n')⟩

/-- Numeric value of a decimal digit list, `none` if a non-digit occurs. -/
def digitsToNat : List Char → Option ℕ
  | [] => some 0
  | c :: rest =>
    if c.isDigit then
      match digitsToNat rest with
      | some n => some (n * 10 + (c.toNat - '0'.toNat))
      | none => none
    else none

/-- Value of a digit list read most-significant first. -/
def decimalValue (l : List Char) : Option ℕ :=
  l.foldl (fun acc c =>
    match acc with
    | some n => if c.isDigit then some (n * 10 + (c.toNat - '0'.toNat)) else none
    | none => none) (some 0)

/-- `Number(s)` for strings: empty/whitespace-only coerces to `0`, an optional
sign followed by decimal digits to its value, anything else to NaN (`none`).
(The source only ever feeds integral numeric strings through this path.) -/
def strToNumber (s : String) : Option ℤ :=
  let t := (strTrim s).data
  match t with
  | [] => some 0
  | '-' :: rest =>
    if rest.isEmpty then none
    else (decimalValue rest).map (fun n => -(n : ℤ))
  | l =>
    if l.all Char.isDigit then (decimalValue l).map (fun n => (n : ℤ))
    else none

/-- `Number(v)`: `none` models a non-finite result (NaN). -/
def jsNumber : JsVal → Option ℤ
  | .vnull => some 0
  | .vundefined => none
  | .vnan => none
  | .vbool b => some (if b then 1 else 0)
  | .vnum n => some n
  | .vstr s => strToNumber s
  | .varr [] => some 0
  | .varr [x] => jsNumber x
  | .varr (_ :: _ :: _) => none
  | .vobj _ => none

/-- `safeNumber` from the source:
`const x = Number(n); return Number.isFinite(x) ? x : fallback;`. -/
def safeNumber (v : JsVal) (fallback : ℤ) : ℤ :=
  match jsNumber v with
  | some x => x
  | none => fallback

/-- `String(v)` for an integer. -/
def intToJsString (n : ℤ) : String :=
  toString n

mutual

/-- `String(v)` coercion (array elements that are `null`/`undefined` render as
the empty string, as in JS `Array.prototype.join`). -/
def jsToString : JsVal → String
  | .vnull => "null"
  | .vundefined => "undefined"
  | .vnan => "NaN"
  | .vbool b => if b then "true" else "false"
  | .vnum n => intToJsString n
  | .vstr s => s
  | .varr l => String.intercalate "," (jsArrStrings l)
  | .vobj _ => "[object Object]"

/-- Stringification of array elements for `join`. -/
def jsArrStrings : List JsVal → List String
  | [] => []
  | .vnull :: rest => "" :: jsArrStrings rest
  | .vundefined :: rest => "" :: jsArrStrings rest
  | v :: rest => jsToString v :: jsArrStrings rest

end

/-- Thousands grouping of a digit list (least-significant digit first). -/
def groupDigitsRev : List Char → List Char
  | [] => []
  | [a] => [a]
  | [a, b] => [a, b]
  | [a, b, c] => [a, b, c]
  | a :: b :: c :: rest => a :: b :: c :: ',' :: groupDigitsRev rest

/-- `n.toLocaleString("en-US")` for an integer: sign plus comma-grouped
digits. -/
def localeString (n : ℤ) : String :=
  let digits := (toString n.natAbs).data
  let grouped := (groupDigitsRev digits.reverse).reverse
  if n < 0 then ⟨'-' :: grouped⟩ else ⟨grouped⟩

/-- `money` from the source: `$${safeNumber(n,0).toLocaleString("en-US")}`. -/
def money (v : JsVal) : String :=
  "$" ++ localeString (safeNumber v 0)

/-- The unit every adapter returns (`{ source, ok, error, data }`).  `error`
is `none` for JS `null`. -/
structure SourceResult where
  source : String
  ok : Bool
  error : Option String
  data : JsVal

/-- The `sources` record assembled by the handler; `none` models an absent
entry (reads of absent entries yield `undefined` in JS). -/
structure Sources where
  serviceNow : Option SourceResult
  salesforce : Option SourceResult
  sharePoint : Option SourceResult

/-- `r?.data` on an optional source result. -/
def optData : Option SourceResult → JsVal
  | none => .vundefined
  | some r => r.data

/-- `r?.ok` truthiness on an optional source result. -/
def okOf : Option SourceResult → Bool
  | none => false
  | some r => r.ok

/-- `r?.error || d` on an optional source result. -/
def errOr (r : Option SourceResult) (d : String) : String :=
  match r with
  | none => d
  | some res =>
    match res.error with
    | none => d
    | some e => if e == "" then d else e

/-! ## `fetchJson`: bounded fetch with JSON parse

The source wraps `fetch` in a timeout via `AbortController` and parses the
body, but its `try { ... } finally { clearTimeout(id) }` has **no `catch`**:
a rejection of `fetch` itself (timeout abort, connection failure) propagates
to the caller.  `FetchOutcome` is the outcome of the underlying `fetch`:
either the promise rejects with a message, or a response arrives with a
status, a body text and — when the text is valid JSON — its parse. -/

/-- Outcome of one `fetch(url, options)` call. -/
inductive FetchOutcome where
  | throws (msg : String)
  | resp (status : ℕ) (text : String) (json : Option JsVal)

/-- What `fetchJson` resolves to: `{ ok, status, json, text }` with
`json = null` when the body was not valid JSON. -/
structure FetchResult where
  ok : Bool
  status : ℕ
  json : JsVal
  text : String

/-- `fetchJson` from the source.  `resp.ok` is `status` in 200–299.  A
rejection of `fetch` is re-raised (no `catch` clause). -/
def fetchJson : FetchOutcome → Except String FetchResult
  | .throws msg => .error msg
  | .resp status text json =>
    .ok { ok := 200 ≤ status && status ≤ 299
          status := status
          json := match json with
                  | some j => j
                  | none => .vnull
          text := text }

/-- Truthiness of an environment variable (`undefined` and `""` are falsy). -/
def envFalsy : Option String → Bool
  | none => true
  | some s => s == ""

/-! ## 1) ServiceNow adapter -/

/-- The ServiceNow environment variables. -/
structure SnEnv where
  url : Option String
  user : Option String
  pass : Option String

/-- `getServiceNowSummary`, as a function of its environment and of the
outcome of its single `fetchJson` call.  Note there is no `try`/`catch`
around the `await`: a rejecting fetch rejects the adapter promise. -/
def getServiceNowSummary (env : SnEnv) (f : FetchOutcome) : Except String SourceResult :=
  if envFalsy env.url || envFalsy env.user || envFalsy env.pass then
    .ok { source := "ServiceNow", ok := false
          error := some "Missing SN_TXI_URL / SN_USERNAME / SN_PASSWORD", data := .vnull }
  else
    match fetchJson f with
    | .error e => .error e
    | .ok r =>
      if !r.ok then
        .ok { source := "ServiceNow", ok := false
              error := some ("HTTP " ++ toString r.status)
              data := jsCoalesce r.json (.vobj [("raw", .vstr r.text)]) }
      else
        .ok { source := "ServiceNow", ok := true, error := none
              data := if jsTruthy (getField r.json "result") then getField r.json "result"
                      else jsCoalesce r.json .vnull }

/-! ## 2) Salesforce adapter -/

/-- The Salesforce environment variables. -/
structure SfEnv where
  username : Option String
  password : Option String
  token : Option String
  loginUrl : Option String

/-- Outcome of one `conn.query(...)` call: the promise rejects with a message
or resolves with a record list (`result.records`). -/
inductive QueryOutcome (α : Type) where
  | throws (msg : String)
  | rows (records : List α)

/-- An `Account` row as selected by the SOQL queries. -/
structure SfAccountRec where
  id : String
  name : String
  industry : Option String
  rating : Option String
deriving DecidableEq

/-- The normalized account (`{ id, name, industry: r.Industry || null,
rating: r.Rating || null }`). -/
structure SfAcct where
  id : String
  name : String
  industry : Option String
  rating : Option String
deriving DecidableEq

/-- `r.Industry || null`: an empty string is falsy and becomes `null`. -/
def orNull : Option String → Option String
  | none => none
  | some s => if s == "" then none else some s

/-- Normalize one account row. -/
def normAcct (r : SfAccountRec) : SfAcct :=
  { id := r.id, name := r.name, industry := orNull r.industry, rating := orNull r.rating }

/-- An `Opportunity` row as selected by the SOQL query (fields that can be
`null` or non-numeric carry `JsVal`). -/
structure SfOppRec where
  id : String
  name : String
  amount : JsVal
  stageName : String
  closeDate : Option String
  probability : JsVal

/-- A normalized opportunity. -/
structure NormOpp where
  id : String
  name : String
  amount : ℤ
  stage : String
  closeDate : Option String
  probability : ℤ
  closeInDays : Option ℤ
deriving DecidableEq

/-- `Math.ceil(a / b)` for integers `a` and positive `b` (the millisecond
difference divided by `1000*60*60*24`). -/
def ceilDiv (a b : ℤ) : ℤ :=
  -((-a).fdiv b)

/-- `daysUntil` from the source, with date parsing (`new Date(dStr).getTime()`)
supplied as the explicit input `dateMs` (`none` models an invalid date). -/
def daysUntil (dateMs : String → Option ℤ) (now : ℤ) (dStr : String) : ℤ :=
  match dateMs dStr with
  | none => 99999
  | some t => ceilDiv (t - now) 86400000

/-- Normalization of one opportunity row (the `oppRecords.map` in the
source). -/
def normOpp (dateMs : String → Option ℤ) (now : ℤ) (r : SfOppRec) : NormOpp :=
  { id := r.id
    name := r.name
    amount := safeNumber r.amount 0
    stage := r.stageName
    closeDate := r.closeDate
    probability := safeNumber r.probability 0
    closeInDays :=
      match r.closeDate with
      | none => none
      | some d => if d == "" then none else some (daysUntil dateMs now d) }

/-- The at-risk filter:
`(o.probability <= 30) || (o.closeInDays != null && o.closeInDays <= 45)`. -/
def atRiskPred (o : NormOpp) : Bool :=
  (o.probability ≤ 30) ||
    (match o.closeInDays with
     | some d => d ≤ 45
     | none => false)

/-- The sort comparator `(a, b) => b.amount - a.amount` orders by descending
amount. -/
def byAmountDesc (a b : NormOpp) : Prop :=
  b.amount ≤ a.amount

instance : DecidableRel byAmountDesc :=
  fun a b => inferInstanceAs (Decidable (b.amount ≤ a.amount))

instance : IsTotal NormOpp byAmountDesc :=
  ⟨fun a b => le_total b.amount a.amount⟩

instance : IsTrans NormOpp byAmountDesc :=
  ⟨fun _ _ _ hab hbc => le_trans hbc hab⟩

/-- `.filter(...).sort((a,b) => b.amount - a.amount).slice(0, 10)` (a stable
sort by descending amount, as JS `sort` is specified to be stable). -/
def sfAtRisk (l : List NormOpp) : List NormOpp :=
  ((l.filter atRiskPred).insertionSort byAmountDesc).take 10

/-- `atRisk.reduce((s, o) => s + safeNumber(o.amount), 0)` (`o.amount` is
already a finite number here, so the inner `safeNumber` is the identity). -/
def sfTotalAmount (l : List NormOpp) : ℤ :=
  l.foldl (fun s o => s + o.amount) 0

/-- The `data` payload of a successful Salesforce result. -/
structure SfData where
  ebcAccount : SfAcct
  opportunityCount : ℕ
  totalAmount : ℤ
  atRiskOpportunities : List NormOpp
deriving DecidableEq

/-- The success payload as built in the source's final `return`. -/
def sfSuccessData (acct : SfAcct) (normalized : List NormOpp) : SfData :=
  let atRisk := sfAtRisk normalized
  { ebcAccount := acct
    opportunityCount := atRisk.length
    totalAmount := sfTotalAmount atRisk
    atRiskOpportunities := atRisk }

/-- JSON encoding of an account for the `data` field. -/
def acctToJs (a : SfAcct) : JsVal :=
  .vobj [("id", .vstr a.id), ("name", .vstr a.name),
         ("industry", match a.industry with | some s => .vstr s | none => .vnull),
         ("rating", match a.rating with | some s => .vstr s | none => .vnull)]

/-- JSON encoding of a normalized opportunity. -/
def oppToJs (o : NormOpp) : JsVal :=
  .vobj [("id", .vstr o.id), ("name", .vstr o.name), ("amount", .vnum o.amount),
         ("stage", .vstr o.stage),
         ("closeDate", match o.closeDate with | some s => .vstr s | none => .vnull),
         ("probability", .vnum o.probability),
         ("closeInDays", match o.closeInDays with | some d => .vnum d | none => .vnull)]

/-- JSON encoding of the success payload
(`{ ebcAccount, atRiskSummary: { opportunityCount, totalAmount },
atRiskOpportunities }`). -/
def sfDataToJs (d : SfData) : JsVal :=
  .vobj [("ebcAccount", acctToJs d.ebcAccount),
         ("atRiskSummary", .vobj [("opportunityCount", .vnum (d.opportunityCount : ℤ)),
                                  ("totalAmount", .vnum d.totalAmount)]),
         ("atRiskOpportunities", .varr (d.atRiskOpportunities.map oppToJs))]

/-- All inputs of one `getSalesforceSummary` run: the environment and the
outcomes of the SDK calls (`conn.login`, the two account queries, the
opportunity query), plus the clock and date parser used by `daysUntil`. -/
structure SfInput where
  env : SfEnv
  login : Except String Unit
  acctQueryEbc : QueryOutcome SfAccountRec
  acctQueryHot : QueryOutcome SfAccountRec
  oppQuery : QueryOutcome SfOppRec
  dateMs : String → Option ℤ
  now : ℤ

/-- The part of `getSalesforceSummary` after an account has been found:
the opportunity query, normalization, and the at-risk aggregation. -/
def sfAfterAccount (i : SfInput) (acct : SfAcct) : Sum (String × JsVal) SfData :=
  match i.oppQuery with
  | .throws e =>
    .inl ("Opportunity query failed: " ++ e, .vobj [("ebcAccount", acctToJs acct)])
  | .rows recs =>
    .inr (sfSuccessData acct (recs.map (normOpp i.dateMs i.now)))

/-- The `acct` value after the first (EBC HQ) account query: its `catch {}`
swallows a rejection, and an empty record list also leaves `acct` null. -/
def sfAcctFromEbc : QueryOutcome SfAccountRec → Option SfAcct
  | .rows (r :: _) => some (normAcct r)
  | .rows [] => none
  | .throws _ => none

/-- `getSalesforceSummary` as a decision: `.inl (error, data)` for the
`ok:false` returns, `.inr data` for the success return.  Every SDK rejection
is caught in the source (`login` and all three queries sit in `try`/`catch`;
the first account query's `catch {}` swallows the error and falls through to
the `Rating='Hot'` query), so the adapter never rejects. -/
def getSalesforceData (i : SfInput) : Sum (String × JsVal) SfData :=
  if envFalsy i.env.username || envFalsy i.env.password || envFalsy i.env.token then
    .inl ("Missing SF_USERNAME / SF_PASSWORD / SF_TOKEN", .vnull)
  else
    match i.login with
    | .error e => .inl ("Login failed: " ++ e, .vnull)
    | .ok _ =>
      match sfAcctFromEbc i.acctQueryEbc with
      | some acct => sfAfterAccount i acct
      | none =>
        match i.acctQueryHot with
        | .throws e => .inl ("Account query failed: " ++ e, .vnull)
        | .rows [] => .inl ("No target account found (EBC HQ or Rating=Hot).", .vnull)
        | .rows (r :: _) => sfAfterAccount i (normAcct r)

/-- `getSalesforceSummary` assembled into a `SourceResult`. -/
def getSalesforceSummary (i : SfInput) : SourceResult :=
  match getSalesforceData i with
  | .inl (e, d) => { source := "Salesforce", ok := false, error := some e, data := d }
  | .inr d => { source := "Salesforce", ok := true, error := none, data := sfDataToJs d }

/-! ## 3) SharePoint adapter -/

/-- `isNoMatchText` from the source. -/
def isNoMatchText (s : String) : Bool :=
  let t := asciiLower s
  strIncludes t "couldn\x27t find" ||
  strIncludes t "could not find" ||
  strIncludes t "no matching" ||
  strIncludes t "i couldn\x27t find any matching" ||
  strIncludes t "try using an exact file name"

/-- The seeded prompt built by `getSharePointSummary` ("Seeded-first, because
your library needs exact filenames to work reliably"). -/
def seededPrompt (question : String) : String :=
  "Search ONLY these seeded files and extract leadership signals:\n" ++
  "1) Annual EBC Review Notes.txt\n" ++
  "2) EBC_Account_Health_Risk.docx\n" ++
  "3) IT_Operations_Weekly_Report.docx\n\n" ++
  "Return:\n" ++
  "- One line called: \"Key risk signals:\"\n" ++
  "- Then 3 bullets max.\n" ++
  "- Each bullet format: Risk | Customer impact | Suggested action\n\n" ++
  "If you still cannot find them, say exactly: \"NO_MATCH\".\n\n" ++
  "User question context: " ++ question

/-- `{...json, note: ...}`: object spread plus an extra key (later keys win). -/
def objSpread (v : JsVal) (extra : List (String × JsVal)) : JsVal :=
  let fields := match v with
                | .vobj l => l
                | _ => []
  .vobj ((fields.filter (fun p => !(extra.any (fun q => q.1 == p.1)))) ++ extra)

/-- `String(json.answer || "")`. -/
def answerOf (json : JsVal) : String :=
  jsToString (jsOr (getField json "answer") (.vstr ""))

/-- `getSharePointSummary`, as a function of the question, the `SP_CHAT_URL`
environment variable, and the outcomes of the (at most two) assistant calls:
`seedF` answers the seeded prompt, `broadF` answers the broad user question.
Besides the `SourceResult` the embedding also returns the list of prompts
actually sent, in order, so that the query order is observable.  As in the
source, a rejection of either `fetchJson` call propagates (no `try`/`catch`),
and a "no match" answer is treated as NOT ok. -/
def getSharePointSummary (question : String) (chatUrl : Option String)
    (seedF broadF : FetchOutcome) : Except String (SourceResult × List String) :=
  if envFalsy chatUrl then
    .ok ({ source := "SharePoint", ok := false, error := some "Missing SP_CHAT_URL",
           data := .vnull }, [])
  else
    match fetchJson seedF with
    | .error e => .error e
    | .ok rSeed =>
      if !rSeed.ok || !jsTruthy rSeed.json then
        .ok ({ source := "SharePoint", ok := false
               error := some ("HTTP " ++ toString rSeed.status ++ " or non-JSON")
               data := jsCoalesce rSeed.json (.vobj [("raw", .vstr rSeed.text)]) },
             [seededPrompt question])
      else
        if answerOf rSeed.json == "" || strTrim (answerOf rSeed.json) == "NO_MATCH" ||
            isNoMatchText (answerOf rSeed.json) then
          match fetchJson broadF with
          | .error e => .error e
          | .ok rBroad =>
            if !rBroad.ok || !jsTruthy rBroad.json then
              .ok ({ source := "SharePoint", ok := false
                     error := some ("HTTP " ++ toString rBroad.status ++ " or non-JSON")
                     data := jsCoalesce rBroad.json (.vobj [("raw", .vstr rBroad.text)]) },
                   [seededPrompt question, question])
            else
              if answerOf rBroad.json == "" || isNoMatchText (answerOf rBroad.json) then
                .ok ({ source := "SharePoint", ok := false
                       error := some ("NO_MATCH: SharePoint assistant could not find seeded docs or relevant content (likely filename/permissions/indexing).")
                       data := .vobj [("seededAttempt", rSeed.json),
                                      ("broadAttempt", rBroad.json)] },
                     [seededPrompt question, question])
              else
                .ok ({ source := "SharePoint", ok := true, error := none
                       data := objSpread rBroad.json [("note", .vstr "Used broad fallback.")] },
                     [seededPrompt question, question])
        else
          .ok ({ source := "SharePoint", ok := true, error := none
                 data := objSpread rSeed.json [("note", .vstr "Used seeded-first lookup.")] },
               [seededPrompt question])

/-! ## 4) Canonical executive answer (the deterministic brief builder) -/

/-- `sn?.data || {}`. -/
def snDataOf (sn : Option SourceResult) : JsVal :=
  jsOr (optData sn) (.vobj [])

/-- `Array.isArray(snData.byPriority) ? snData.byPriority : []`. -/
def byPOf (sn : Option SourceResult) : List JsVal :=
  asArray (getField (snDataOf sn) "byPriority")

/-- The unguarded property read `v.name`: JS throws a `TypeError` when the
base is `null` or `undefined`; any other base yields the `getField` value. -/
def getFieldThrows (v : JsVal) (name : String) : Except String JsVal :=
  match v with
  | .vnull => .error ("TypeError: Cannot read properties of null (reading " ++ name ++ ")")
  | .vundefined =>
    .error ("TypeError: Cannot read properties of undefined (reading " ++ name ++ ")")
  | _ => .ok (getField v name)

/-- `byP.find((x) => String(x.priority) === p)`: `Array.prototype.find` calls
the callback on each element in order; the callback's **unguarded**
`x.priority` read (txi-dashboard.js lines 258 and 279-280) throws on a
`null`/`undefined` element, and that exception propagates out of `find`. -/
def findPriority (p : String) : List JsVal → Except String (Option JsVal)
  | [] => .ok none
  | x :: rest =>
    match getFieldThrows x "priority" with
    | .error e => .error e
    | .ok pr =>
      if jsToString pr == p then .ok (some x)
      else findPriority p rest

/-- `safeNumber(byP.find((x) => String(x.priority) === p)?.count, 0)` — the
found element is never nullish (the callback would have thrown on it), so the
`?.count` read cannot throw; but the `find` itself can. -/
def priorityCount (sn : Option SourceResult) (p : String) : Except String ℤ :=
  match findPriority p (byPOf sn) with
  | .error e => .error e
  | .ok found =>
    .ok (safeNumber
      (match found with
       | some x => getField x "count"
       | none => .vundefined) 0)

/-- `safeNumber(snData.totalHighPriority, 0)`. -/
def totalHPOf (sn : Option SourceResult) : ℤ :=
  safeNumber (getField (snDataOf sn) "totalHighPriority") 0

/-- `sf?.data || {}`. -/
def sfDataOf (sf : Option SourceResult) : JsVal :=
  jsOr (optData sf) (.vobj [])

/-- `safeNumber(sfData.atRiskSummary?.totalAmount, 0)`. -/
def revAmountOf (sf : Option SourceResult) : ℤ :=
  safeNumber (getField (getField (sfDataOf sf) "atRiskSummary") "totalAmount") 0

/-- `safeNumber(sfData.atRiskSummary?.opportunityCount, 0)`. -/
def revCountOf (sf : Option SourceResult) : ℤ :=
  safeNumber (getField (getField (sfDataOf sf) "atRiskSummary") "opportunityCount") 0

/-- `computeRiskLevel` from the source: the "forced clarity heuristic".  Its
first statement already runs the throwing `find` (line 258), before any
branch — including the `!sn?.ok` one — so the function is `Except`-valued. -/
def computeRiskLevelBody (sn sf sp : Option SourceResult) (p1 : ℤ) : String :=
  let totalHP := totalHPOf sn
  let rev := revAmountOf sf
  if !okOf sn then
    "High — operational visibility is degraded right now."
  else if p1 ≥ 50 ∨ totalHP ≥ 75 then
    "High — customer experience and SLA commitments are at risk within the next 24 hours."
  else if rev ≥ 250000 ∧ (p1 ≥ 20 ∨ totalHP ≥ 50) then
    "High — combined ops disruption + revenue exposure needs executive coordination."
  else if rev ≥ 250000 then
    "Medium — revenue exposure is material; protect top deals and reduce churn risk."
  else if !okOf sp then
    "Medium — decision risk: knowledge signals are unavailable; validate impacts with ops owners."
  else
    "Low/Medium — monitor closely; no immediate escalation signals beyond baseline."

/-- `computeRiskLevel` assembled: the throwing extraction of `p1`, then the
pure branch table. -/
def computeRiskLevel (sn sf sp : Option SourceResult) : Except String String :=
  match priorityCount sn "1" with
  | .error e => .error e
  | .ok p1 => .ok (computeRiskLevelBody sn sf sp p1)

/-- The ordinal reading of a risk string: `High…` above `Medium…` above the
rest (`Low/Medium…`). -/
def riskOrdinal (s : String) : ℕ :=
  if strStartsWith s "High" then 2
  else if strStartsWith s "Medium" then 1
  else 0

/-- The pure rest of the brief builder, once `p1`, `p2` and the risk string
have been extracted without throwing. -/
def buildCanonicalBody (sources : Sources) (p1 p2 : ℤ) (risk : String) : String :=
  let sn := sources.serviceNow
  let sf := sources.salesforce
  let sp := sources.sharePoint
  let totalHP := totalHPOf sn
  let acctName := jsToString (jsOr (getField (getField (sfDataOf sf) "ebcAccount") "name")
    (.vstr "a key account"))
  let acctIndustry := jsToString (jsOr (getField (getField (sfDataOf sf) "ebcAccount") "industry")
    (.vstr "—"))
  let revCount := revCountOf sf
  let revAmount := revAmountOf sf
  let spData := jsOr (optData sp) (.vobj [])
  let spAnswerLine :=
    if okOf sp && jsTruthy (getField spData "answer") then
      strTrim (jsToString (getField spData "answer"))
    else ""
  let spSignal :=
    if okOf sp then
      (if spAnswerLine != "" then firstLineOf spAnswerLine
       else "No additional knowledge signals returned.")
    else "Knowledge signal unavailable — SharePoint lookup failed (likely filename/permissions/indexing)."
  let whatsHappening :=
    if okOf sn then
      "There are " ++ intToJsString totalHP ++ " high-priority incidents open today (P1 " ++
        intToJsString p1 ++ ", P2 " ++ intToJsString p2 ++
        "), indicating elevated service disruption risk."
    else
      "Operational data is partially unavailable because ServiceNow summary failed: " ++
        errOr sn "unknown error" ++ "."
  let whyMatters := String.intercalate " "
    ((if okOf sn then ["If unresolved, outages may extend customer downtime and breach SLAs."]
      else []) ++
     (if okOf sf && revCount > 0 then
        ["We also have " ++ intToJsString revCount ++ " at-risk deal(s) worth ~" ++
         money (.vnum revAmount) ++ " that could slip without proactive coverage."]
      else []) ++
     (if !okOf sp then
        ["Additionally, leadership context from SharePoint is missing, increasing decision uncertainty."]
      else []))
  let whoImpacted := String.intercalate " "
    ((if okOf sf then ["Commercial focus: " ++ acctName ++ " (" ++ acctIndustry ++ ")."]
      else []) ++
     (if okOf sn then
        ["Operational focus: customers tied to P1/P2 incidents and active SLA commitments."]
      else []) ++
     (if okOf sp && spSignal != "" then ["Knowledge signals: " ++ spSignal] else []))
  let leadershipAction := String.intercalate " "
    (["Confirm today’s P1 owners + ETA, and demand a 24-hour stabilization plan (root cause + containment)."] ++
     (if okOf sf && revCount > 0 then
        ["Protect revenue: executive sponsor outreach for " ++ acctName ++
         " and top at-risk deals today."]
      else []) ++
     (if !okOf sp then
        ["Fix knowledge visibility: validate SharePoint permissions + exact file names for seeded docs and re-test search."]
      else []))
  let trace := "Traceability: Salesforce(" ++ (if okOf sf then "OK" else "error") ++
    ") | ServiceNow(" ++ (if okOf sn then "OK" else "error") ++
    ") | SharePoint(" ++ (if okOf sp then "OK" else "error") ++ ")"
  String.intercalate "\n"
    ["EXECUTIVE BRIEF — Today’s Primary Risk & Customer Impact",
     "",
     "1. What’s happening (1 sentence, no jargon)",
     whatsHappening,
     "",
     "2. Why this matters (business impact)",
     whyMatters,
     "",
     "3. Who is impacted (be specific, not generic)",
     whoImpacted,
     "",
     "4. Risk level (explicit, forced clarity)",
     "Risk: " ++ risk,
     "",
     "5. Leadership attention required (decision-oriented)",
     leadershipAction,
     "",
     trace]

/-- `buildCanonicalExecutiveAnswer` from the source.  It is **not** total:
its first two statements run the throwing `find` callbacks (lines 279-280),
and `computeRiskLevel` (line 319) re-runs the same `find`; a `TypeError` from
any of them propagates to the caller.  (`question` is received but unused,
exactly as in the source.) -/
def buildCanonicalExecutiveAnswer (question : String) (sources : Sources) :
    Except String String :=
  match priorityCount sources.serviceNow "1" with
  | .error e => .error e
  | .ok p1 =>
    match priorityCount sources.serviceNow "2" with
    | .error e => .error e
    | .ok p2 =>
      match computeRiskLevel sources.serviceNow sources.salesforce sources.sharePoint with
      | .error e => .error e
      | .ok risk => .ok (buildCanonicalBody sources p1 p2 risk)

/-! ## 5) Gemini polish and the handlers -/

/-- What `callGeminiPolish` resolves to, seen from the handler: either
`{used:true, model, text}` (with `text` the trimmed non-empty model output) or
`{used:false, error}` (`text` is `""` in that case).  The Gemini endpoint is
external, so the descriptor is an input of the handler embedding. -/
structure GeminiResult where
  used : Bool
  model : Option String
  text : String
  error : Option String

/-- The `gemini` field of the response envelope. -/
structure GeminiEnvelope where
  used : Bool
  model : Option String
  error : Option String
deriving DecidableEq

/-- `gemini?.error || null`. -/
def errOrNull : Option String → Option String
  | none => none
  | some s => if s == "" then none else some s

/-- `looksLikeCanonicalTemplate` from the hardened handler variant
(`src/unnamed/part_007`): the template guard.  The text must contain the five
numbered section headers, the title and the traceability label, and be at
least 350 characters long. -/
def looksLikeCanonicalTemplate (text : String) : Bool :=
  (["EXECUTIVE BRIEF",
    "1. What’s happening",
    "2. Why this matters",
    "3. Who is impacted",
    "4. Risk level",
    "5. Leadership attention required",
    "Traceability:"].all (fun m => strIncludes text m)) &&
  text.length ≥ 350

/-- The success body of the handler response. -/
structure OkBody where
  question : String
  combinedAnswer : String
  sources : Sources
  gemini : GeminiEnvelope

/-- The handler response: HTTP 200 with the envelope, or an error status with
`{ error, detail }`. -/
inductive HandlerResponse where
  | ok (status : ℕ) (body : OkBody)
  | err (status : ℕ) (error : String) (detail : String)

/-- `Promise.all` over the three adapter promises: resolves with the triple
when all resolve, rejects as soon as any rejects (the embedding picks the
leftmost rejection; which rejection wins in JS depends on timing, but *some*
rejection wins whenever one exists, which is all the theorems below use). -/
def promiseAll3 (a b c : Except String SourceResult) :
    Except String (SourceResult × SourceResult × SourceResult) :=
  match a with
  | .error e => .error e
  | .ok ra =>
    match b with
    | .error e => .error e
    | .ok rb =>
      match c with
      | .error e => .error e
      | .ok rc => .ok (ra, rb, rc)

/-- The POST path of `handler` in `src/api/txi-dashboard.js`, after request
validation: fan out the three adapters with `Promise.all`, build the
canonical deterministic brief — whose throw (the unguarded `x.priority`
read) lands in the handler's `catch` and yields HTTP 500 — then let Gemini
"polish" it, accepted whenever `gemini.used && gemini.text` is truthy, with
**no template guard** (the source comments "safe because prompt forces
keeping all 5 sections"). -/
def handler (question : String) (snP sfP spP : Except String SourceResult)
    (gem : GeminiResult) : HandlerResponse :=
  match promiseAll3 snP sfP spP with
  | .error e => .err 500 "FUNCTION_INVOCATION_FAILED" e
  | .ok (sn, sf, sp) =>
    match buildCanonicalExecutiveAnswer question
        { serviceNow := some sn, salesforce := some sf, sharePoint := some sp } with
    | .error e => .err 500 "FUNCTION_INVOCATION_FAILED" e
    | .ok canonical =>
      .ok 200
        { question := question
          combinedAnswer := if gem.used && gem.text != "" then gem.text else canonical
          sources := { serviceNow := some sn, salesforce := some sf, sharePoint := some sp }
          gemini := if gem.used then ⟨true, gem.model, none⟩
                    else ⟨false, none, errOrNull gem.error⟩ }

/-- The Gemini-acceptance step of the hardened handler variant
(`src/unnamed/part_007`): given the canonical brief (there
`buildCanonicalExecutiveAnswer({sources})`) and the Gemini descriptor, the
polished text is accepted **only if** it passes `looksLikeCanonicalTemplate`;
otherwise the canonical brief is kept and the envelope reports
`used:false`. -/
def handlerHardenedCombine (canonical : String) (gem : GeminiResult) :
    String × GeminiEnvelope :=
  if gem.used && gem.text != "" && looksLikeCanonicalTemplate gem.text then
    (gem.text, ⟨true, gem.model, none⟩)
  else
    (canonical,
     ⟨false, none,
      some ((errOrNull gem.error).getD "Gemini output rejected by template guard.")⟩)

/-! ## Observation helpers and concrete inputs used by the theorems -/

/-- HTTP status of a handler response. -/
def responseStatus : HandlerResponse → ℕ
  | .ok s _ => s
  | .err s _ _ => s

/-- `combinedAnswer` of a successful handler response (`""` on error). -/
def responseCombined : HandlerResponse → String
  | .ok _ b => b.combinedAnswer
  | .err _ _ _ => ""

/-- `gemini.used` of a successful handler response (`false` on error). -/
def responseGeminiUsed : HandlerResponse → Bool
  | .ok _ b => b.gemini.used
  | .err _ _ _ => false

/-- The invariant that survives of the mutual-exclusivity claim: `ok` is
reflected in `error` (none on success, a non-empty message on failure). -/
def errorConsistent (r : SourceResult) : Prop :=
  (r.ok = true → r.error = none) ∧
  (r.ok = false → ∃ e, r.error = some e ∧ e ≠ "")

/-- A fully configured ServiceNow environment. -/
def snEnvW : SnEnv :=
  { url := some "https://instance.service-now.com/api/txi", user := some "svc", pass := some "pw" }

/-- The ServiceNow result when its environment variables are missing. -/
def snMissingResult : SourceResult :=
  { source := "ServiceNow", ok := false
    error := some "Missing SN_TXI_URL / SN_USERNAME / SN_PASSWORD", data := .vnull }

/-- The SharePoint result when `SP_CHAT_URL` is missing. -/
def spMissingResult : SourceResult :=
  { source := "SharePoint", ok := false, error := some "Missing SP_CHAT_URL", data := .vnull }

/-- The Salesforce result when its environment variables are missing. -/
def sfMissingResult : SourceResult :=
  { source := "Salesforce", ok := false
    error := some "Missing SF_USERNAME / SF_PASSWORD / SF_TOKEN", data := .vnull }

/-- A Gemini descriptor with a short, template-violating polished text — a
reachable outcome, since `callGeminiPolish` returns `used:true` for any
non-empty trimmed model output. -/
def gemJunk : GeminiResult :=
  { used := true, model := some "gemini-2.5-flash", text := "Looks fine.", error := none }

/-- A healthy Salesforce adapter input: login succeeds, `EBC HQ` is found,
and two open opportunities come back (probabilities 20 and 10, no close
date). -/
def sfInputW : SfInput :=
  { env := { username := some "user@example.com", password := some "pw", token := some "tok"
             loginUrl := none }
    login := .ok ()
    acctQueryEbc := .rows [{ id := "001EBC", name := "EBC HQ"
                             industry := some "Technology", rating := some "Hot" }]
    acctQueryHot := .rows []
    oppQuery := .rows
      [{ id := "006A", name := "Deal A", amount := .vnum 240000
         stageName := "Negotiation", closeDate := none, probability := .vnum 20 },
       { id := "006B", name := "Deal B", amount := .vnum 100000
         stageName := "Prospecting", closeDate := none, probability := .vnum 10 }]
    dateMs := fun _ => none
    now := 0 }

/-- The data `sfInputW` produces. -/
def sfDataW : SfData :=
  { ebcAccount := { id := "001EBC", name := "EBC HQ"
                    industry := some "Technology", rating := some "Hot" }
    opportunityCount := 2
    totalAmount := 340000
    atRiskOpportunities :=
      [{ id := "006A", name := "Deal A", amount := 240000, stage := "Negotiation"
         closeDate := none, probability := 20, closeInDays := none },
       { id := "006B", name := "Deal B", amount := 100000, stage := "Prospecting"
         closeDate := none, probability := 10, closeInDays := none }] }

/-- A Salesforce input whose single open opportunity has probability exactly
30 and no close date. -/
def sfInputB : SfInput :=
  { env := { username := some "user@example.com", password := some "pw", token := some "tok"
             loginUrl := none }
    login := .ok ()
    acctQueryEbc := .rows [{ id := "001EBC", name := "EBC HQ"
                             industry := some "Technology", rating := some "Hot" }]
    acctQueryHot := .rows []
    oppQuery := .rows
      [{ id := "006C", name := "Deal C", amount := .vnum 50000
         stageName := "Prospecting", closeDate := none, probability := .vnum 30 }]
    dateMs := fun _ => none
    now := 0 }

/-- The data `sfInputB` produces. -/
def sfDataB : SfData :=
  { ebcAccount := { id := "001EBC", name := "EBC HQ"
                    industry := some "Technology", rating := some "Hot" }
    opportunityCount := 1
    totalAmount := 50000
    atRiskOpportunities :=
      [{ id := "006C", name := "Deal C", amount := 50000, stage := "Prospecting"
         closeDate := none, probability := 30, closeInDays := none }] }

/-- A healthy ServiceNow result (the spec's scenario numbers). -/
def snOkResult : SourceResult :=
  { source := "ServiceNow", ok := true, error := none
    data := .vobj [("totalHighPriority", .vnum 78),
                   ("byPriority", .varr
                     [.vobj [("priority", .vstr "1"), ("count", .vnum 72)],
                      .vobj [("priority", .vstr "2"), ("count", .vnum 6)]])] }

/-- A Salesforce result whose at-risk revenue exceeds $250k. -/
def sfBigRevResult : SourceResult :=
  { source := "Salesforce", ok := true, error := none
    data := .vobj [("atRiskSummary", .vobj [("opportunityCount", .vnum 3),
                                            ("totalAmount", .vnum 300000)])] }

/-- The question used by the concrete SharePoint runs. -/
def q7 : String := "What are the top risks today?"

/-- A seeded-prompt response that is a usable match. -/
def seedOkFetch : FetchOutcome :=
  .resp 200 "\x7b\"answer\":\"Key risk signals: ops incident backlog rising\"\x7d"
    (some (.vobj [("answer", .vstr "Key risk signals: ops incident backlog rising")]))

/-- The sources record used by the template-guard counterexample. -/
def sourcesC1 : Sources :=
  { serviceNow := some snMissingResult, salesforce := some sfMissingResult
    sharePoint := some spMissingResult }

/-- The unguarded handler run on resolved sources with a junk Gemini text. -/
def c1run : HandlerResponse :=
  handler "q" (.ok snMissingResult) (.ok sfMissingResult) (.ok spMissingResult) gemJunk

/-- The SharePoint result when the seeded lookup succeeds with
`seedOkFetch`. -/
def spSeedOkResult : SourceResult :=
  { source := "SharePoint", ok := true, error := none
    data := .vobj [("answer", .vstr "Key risk signals: ops incident backlog rising"),
                   ("note", .vstr "Used seeded-first lookup.")] }

/-- A resolved `ok:true` ServiceNow result whose `byPriority` array contains
a `null` element before the matching entry — a shape any 2xx ServiceNow body
can produce, on which the unguarded `x.priority` read throws. -/
def snBadResult : SourceResult :=
  { source := "ServiceNow", ok := true, error := none
    data := .vobj [("totalHighPriority", .vnum 78),
                   ("byPriority", .varr
                     [.vnull,
                      .vobj [("priority", .vstr "1"), ("count", .vnum 72)]])] }

/-- A sources record built from `snBadResult`. -/
def sourcesBad : Sources :=
  { serviceNow := some snBadResult, salesforce := some sfMissingResult
    sharePoint := some spMissingResult }

/-- The `TypeError` message of the unguarded `priority` read on `null`. -/
def tyErrNull : String := "TypeError: Cannot read properties of null (reading priority)"

/-- The canonical brief the builder produces on `sourcesC1` (all three
sources resolved but failed; the builder succeeds there). -/
def canonicalC1 : String :=
  match buildCanonicalExecutiveAnswer "q" sourcesC1 with
  | .ok s => s
  | .error _ => ""

/-! ## Helper lemmas -/

theorem stringLengthZero {a : String} (h : a.length = 0) : a = "" := by
  cases a with
  | mk data =>
    cases data with
    | nil => rfl
    | cons c cs => simp [String.length] at h

theorem appendNeLeft {a b : String} (h : a ≠ "") : a ++ b ≠ "" := by
  intro hc
  apply h
  apply stringLengthZero
  have hlen := congrArg String.length hc
  rw [String.length_append] at hlen
  have h0 : ("" : String).length = 0 := rfl
  omega

theorem intercalateGoLength (s : String) (as : List String) :
    ∀ acc : String, acc.length ≤ (String.intercalate.go acc s as).length := by
  induction as with
  | nil => intro acc; simp [String.intercalate.go]
  | cons a as ih =>
    intro acc
    have h1 : String.intercalate.go acc s (a :: as) =
        String.intercalate.go (acc ++ s ++ a) s as := by
      simp [String.intercalate.go]
    rw [h1]
    have h2 := ih (acc ++ s ++ a)
    have h3 : acc.length ≤ (acc ++ s ++ a).length := by
      rw [String.length_append, String.length_append]
      omega
    omega

theorem intercalateConsNeEmpty (s a : String) (as : List String) (h : a ≠ "") :
    String.intercalate s (a :: as) ≠ "" := by
  have h1 : String.intercalate s (a :: as) = String.intercalate.go a s as := by
    simp [String.intercalate]
  rw [h1]
  intro hc
  apply h
  apply stringLengthZero
  have h2 := intercalateGoLength s as a
  rw [hc] at h2
  have h0 : ("" : String).length = 0 := rfl
  omega

/-- The deterministic brief is never empty: it always begins with the
constant title line. -/
theorem intercalateConsLength (s a : String) (as : List String) :
    a.length ≤ (String.intercalate s (a :: as)).length := by
  have h1 : String.intercalate s (a :: as) = String.intercalate.go a s as := by
    simp [String.intercalate]
  rw [h1]
  exact intercalateGoLength s as a

/-- The pure body of the brief is never empty: it always begins with the
constant title line, which also bounds its length from below. -/
theorem buildCanonicalBodyNeEmpty (s : Sources) (p1 p2 : ℤ) (risk : String) :
    buildCanonicalBody s p1 p2 risk ≠ "" ∧
    ("EXECUTIVE BRIEF — Today’s Primary Risk & Customer Impact").length ≤
      (buildCanonicalBody s p1 p2 risk).length := by
  unfold buildCanonicalBody
  exact ⟨intercalateConsNeEmpty _ _ _ (by decide), intercalateConsLength _ _ _⟩

set_option maxHeartbeats 1000000 in
/-- Every successful run of the brief builder yields the non-empty pure
body. -/
theorem buildCanonicalOk (q : String) (s : Sources) (out : String)
    (h : buildCanonicalExecutiveAnswer q s = .ok out) :
    out ≠ "" ∧
    ("EXECUTIVE BRIEF — Today’s Primary Risk & Customer Impact").length ≤ out.length := by
  unfold buildCanonicalExecutiveAnswer at h
  cases h1 : priorityCount s.serviceNow "1" with
  | error e1 =>
    rw [h1] at h
    exact Except.noConfusion h
  | ok p1 =>
    rw [h1] at h
    dsimp only at h
    cases h2 : priorityCount s.serviceNow "2" with
    | error e2 =>
      rw [h2] at h
      exact Except.noConfusion h
    | ok p2 =>
      rw [h2] at h
      dsimp only at h
      cases h3 : computeRiskLevel s.serviceNow s.salesforce s.sharePoint with
      | error e3 =>
        rw [h3] at h
        exact Except.noConfusion h
      | ok risk =>
        rw [h3] at h
        dsimp only at h
        have hout : buildCanonicalBody s p1 p2 risk = out := Except.ok.inj h
        rw [← hout]
        exact buildCanonicalBodyNeEmpty _ _ _ _

theorem foldlAddAmount (l : List NormOpp) :
    ∀ c : ℤ, l.foldl (fun s o => s + o.amount) c = c + (l.map NormOpp.amount).sum := by
  induction l with
  | nil => intro c; simp
  | cons o l ih =>
    intro c
    simp [ih, List.sum_cons]
    ring

/-- The success payload is internally consistent by construction. -/
theorem sfSuccessDataProps (a : SfAcct) (l : List NormOpp) :
    (sfSuccessData a l).opportunityCount = (sfSuccessData a l).atRiskOpportunities.length ∧
    (sfSuccessData a l).atRiskOpportunities.length ≤ 10 ∧
    ((sfSuccessData a l).atRiskOpportunities.map NormOpp.amount).Sorted (· ≥ ·) ∧
    (sfSuccessData a l).totalAmount =
      ((sfSuccessData a l).atRiskOpportunities.map NormOpp.amount).sum := by
  refine ⟨rfl, ?_, ?_, ?_⟩
  · show (sfAtRisk l).length ≤ 10
    unfold sfAtRisk
    simp [List.length_take]
  · show ((sfAtRisk l).map NormOpp.amount).Sorted (· ≥ ·)
    unfold sfAtRisk
    have hs : ((l.filter atRiskPred).insertionSort byAmountDesc).Sorted byAmountDesc :=
      List.sorted_insertionSort byAmountDesc _
    have ht : (((l.filter atRiskPred).insertionSort byAmountDesc).take 10).Sorted byAmountDesc :=
      List.Pairwise.sublist (List.take_sublist _ _) hs
    rw [List.Sorted, List.pairwise_map]
    exact ht
  · show sfTotalAmount (sfAtRisk l) = ((sfAtRisk l).map NormOpp.amount).sum
    unfold sfTotalAmount
    rw [foldlAddAmount]
    simp

/-- Every success of the Salesforce adapter goes through `sfSuccessData` on
the mapped opportunity rows. -/
theorem getSalesforceDataSuccess (i : SfInput) (d : SfData)
    (h : getSalesforceData i = Sum.inr d) :
    ∃ acct recs, i.oppQuery = QueryOutcome.rows recs ∧
      d = sfSuccessData acct (recs.map (normOpp i.dateMs i.now)) := by
  unfold getSalesforceData sfAfterAccount at h
  split at h
  all_goals try split at h
  all_goals try split at h
  all_goals try split at h
  all_goals try split at h
  all_goals first
    | exact Sum.noConfusion h
    | (cases h
       exact ⟨_, _, by assumption, rfl⟩)

/-- Every failure of the Salesforce adapter carries a non-empty error. -/
theorem getSalesforceDataFailNe (i : SfInput) (e : String) (dv : JsVal)
    (h : getSalesforceData i = Sum.inl (e, dv)) : e ≠ "" := by
  unfold getSalesforceData sfAfterAccount at h
  split at h
  all_goals try split at h
  all_goals try split at h
  all_goals try split at h
  all_goals try split at h
  all_goals first
    | exact Sum.noConfusion h
    | (cases h
       first
       | decide
       | exact appendNeLeft (by decide))

theorem atRiskPredIff (o : NormOpp) :
    atRiskPred o = true ↔
    (o.probability ≤ 30 ∨ ∃ k, o.closeInDays = some k ∧ k ≤ 45) := by
  unfold atRiskPred
  cases hcd : o.closeInDays with
  | none => simp [hcd]
  | some k => simp [hcd]

/-! ## The claims -/

/-- C1, counterexample: in the handler of `src/api/txi-dashboard.js` there is
no template guard.  With all three adapters resolved and Gemini returning the
short text `"Looks fine."` — which misses every required section header and
fails `looksLikeCanonicalTemplate` — the response publishes the junk text as
`combinedAnswer` and reports `gemini.used = true`, contradicting the claim
that `gemini.used === false` and `combinedAnswer` equals the deterministic
brief. -/
theorem c1_unguarded_polish_counterexample :
    responseStatus c1run = 200 ∧
    responseGeminiUsed c1run = true ∧
    responseCombined c1run = "Looks fine." ∧
    looksLikeCanonicalTemplate "Looks fine." = false ∧
    buildCanonicalExecutiveAnswer "q" sourcesC1 = Except.ok canonicalC1 ∧
    responseCombined c1run ≠ canonicalC1 :=
  ⟨rfl, rfl, rfl, by decide, rfl, by decide⟩

/-- C1, amended: in the hardened handler variant (`src/unnamed/part_007`),
whose Gemini-acceptance step applies `looksLikeCanonicalTemplate`, an LLM
text missing a required section header is rejected: `combinedAnswer` stays
the deterministic canonical brief and the envelope reports `used:false`. -/
theorem c1_template_guard (canonical : String) (gem : GeminiResult)
    (h : looksLikeCanonicalTemplate gem.text = false) :
    (handlerHardenedCombine canonical gem).1 = canonical ∧
    (handlerHardenedCombine canonical gem).2.used = false := by
  unfold handlerHardenedCombine
  have hc : (gem.used && gem.text != "" && looksLikeCanonicalTemplate gem.text) = false := by
    simp [h]
  simp [hc]

/-- C1, witness: the guard of the hardened variant rejects `"Looks fine."`
and keeps the canonical brief. -/
theorem c1_template_guard_witness :
    looksLikeCanonicalTemplate gemJunk.text = false ∧
    ((handlerHardenedCombine "base brief" gemJunk).1 = "base brief" ∧
     (handlerHardenedCombine "base brief" gemJunk).2.used = false) :=
  ⟨by decide, c1_template_guard "base brief" gemJunk (by decide)⟩

/-- C2, counterexample: with a fully configured environment, an aborted or
failed `fetch` (timeout, connection failure) is **not** converted into an
`ok:false` result — `fetchJson` has no `catch`, so the ServiceNow adapter's
promise rejects with the underlying exception. -/
theorem c2_fetch_rejection_propagates :
    getServiceNowSummary snEnvW (.throws "AbortError: The operation was aborted.") =
      Except.error "AbortError: The operation was aborted." := rfl

/-- C2, amended: the Salesforce adapter never rejects and reports every
failure as `ok:false` with a non-empty error; the ServiceNow and SharePoint
adapters convert missing configuration and non-2xx statuses into `ok:false`
results, but a rejected `fetch` propagates out of `fetchJson` and rejects the
adapter promise, and a 2xx response with a non-JSON body makes the ServiceNow
adapter resolve `ok:true` with `data:null` rather than `ok:false`. -/
theorem c2_adapter_failure_policy :
    (∀ i : SfInput, errorConsistent (getSalesforceSummary i)) ∧
    (∀ (env : SnEnv) (msg : String),
      (envFalsy env.url || envFalsy env.user || envFalsy env.pass) = false →
      getServiceNowSummary env (.throws msg) = .error msg) ∧
    (∀ (q : String) (url : Option String) (msg : String) (broadF : FetchOutcome),
      envFalsy url = false →
      getSharePointSummary q url (.throws msg) broadF = .error msg) ∧
    (∀ (env : SnEnv) (status : ℕ) (text : String) (json : Option JsVal),
      (envFalsy env.url || envFalsy env.user || envFalsy env.pass) = false →
      ¬(200 ≤ status ∧ status ≤ 299) →
      getServiceNowSummary env (.resp status text json) =
        .ok { source := "ServiceNow", ok := false
              error := some ("HTTP " ++ toString status)
              data := jsCoalesce (match json with | some j => j | none => .vnull)
                        (.vobj [("raw", .vstr text)]) }) ∧
    (∀ (env : SnEnv) (status : ℕ) (text : String),
      (envFalsy env.url || envFalsy env.user || envFalsy env.pass) = false →
      200 ≤ status ∧ status ≤ 299 →
      getServiceNowSummary env (.resp status text none) =
        .ok { source := "ServiceNow", ok := true, error := none, data := .vnull }) := by
  refine ⟨?_, ?_, ?_, ?_, ?_⟩
  · intro i
    unfold getSalesforceSummary
    cases hd : getSalesforceData i with
    | inl p =>
      obtain ⟨e, dv⟩ := p
      exact ⟨fun hk => Bool.noConfusion hk,
             fun _ => ⟨e, rfl, getSalesforceDataFailNe i e dv hd⟩⟩
    | inr d =>
      exact ⟨fun _ => rfl, fun hk => Bool.noConfusion hk⟩
  · intro env msg h
    simp [getServiceNowSummary, fetchJson, h]
  · intro q url msg broadF h
    simp [getSharePointSummary, fetchJson, h]
  · intro env status text json h hs
    have hb : (200 ≤ status && status ≤ 299) = false := by
      simp only [Bool.and_eq_false_iff, decide_eq_false_iff_not]
      by_cases h1 : 200 ≤ status
      · right
        intro h2
        exact hs ⟨h1, h2⟩
      · left
        exact h1
    simp [getServiceNowSummary, fetchJson, h, hb]
  · intro env status text h hs
    have hb : (200 ≤ status && status ≤ 299) = true := by
      simp [hs.1, hs.2]
    simp [getServiceNowSummary, fetchJson, h, hb, getField, jsTruthy, jsCoalesce]

/-- C2, witness: the rejection branch of the amended statement at a concrete
environment and abort message. -/
theorem c2_adapter_failure_policy_witness :
    (envFalsy snEnvW.url || envFalsy snEnvW.user || envFalsy snEnvW.pass) = false ∧
    getServiceNowSummary snEnvW (.throws "network timeout") =
      Except.error "network timeout" :=
  ⟨by decide, c2_adapter_failure_policy.2.1 snEnvW "network timeout" (by decide)⟩

/-- C4, counterexample: on a non-2xx ServiceNow response with a JSON body the
adapter returns `ok:false` with **both** `error` (`"HTTP 500"`) and a
non-null `data` (the response body) populated, contradicting "never both". -/
theorem c4_both_populated_counterexample :
    getServiceNowSummary snEnvW
        (.resp 500 "oops" (some (.vobj [("msg", .vstr "boom")]))) =
      Except.ok { source := "ServiceNow", ok := false, error := some "HTTP 500"
                  data := .vobj [("msg", .vstr "boom")] } ∧
    JsVal.vobj [("msg", .vstr "boom")] ≠ JsVal.vnull :=
  ⟨rfl, fun hc => JsVal.noConfusion hc⟩

/-- C4, amended: for every `SourceResult` any of the three adapters resolves
with, `ok = true` implies `error` is null and `ok = false` implies `error` is
a non-empty string; but `data` is **not** mutually exclusive with `error`
(diagnostic payloads accompany several failures), and the ServiceNow adapter
can resolve `ok:true` with null `data` (2xx non-JSON body). -/
theorem c4_error_consistency :
    (∀ (env : SnEnv) (f : FetchOutcome) (r : SourceResult),
      getServiceNowSummary env f = .ok r → errorConsistent r) ∧
    (∀ i : SfInput, errorConsistent (getSalesforceSummary i)) ∧
    (∀ (q : String) (url : Option String) (seedF broadF : FetchOutcome)
        (r : SourceResult) (t : List String),
      getSharePointSummary q url seedF broadF = .ok (r, t) → errorConsistent r) := by
  refine ⟨?_, ?_, ?_⟩
  · intro env f r h
    unfold getServiceNowSummary at h
    split at h
    all_goals try split at h
    all_goals try split at h
    all_goals first
      | exact Except.noConfusion h
      | (cases h
         refine ⟨fun hk => ?_, fun hk => ?_⟩ <;>
           first
           | rfl
           | exact Bool.noConfusion hk
           | (refine ⟨_, rfl, ?_⟩
              first
              | decide
              | exact appendNeLeft (by decide)))
  · intro i
    unfold getSalesforceSummary
    cases hd : getSalesforceData i with
    | inl p =>
      obtain ⟨e, dv⟩ := p
      exact ⟨fun hk => Bool.noConfusion hk,
             fun _ => ⟨e, rfl, getSalesforceDataFailNe i e dv hd⟩⟩
    | inr d =>
      exact ⟨fun _ => rfl, fun hk => Bool.noConfusion hk⟩
  · intro q url seedF broadF r t h
    unfold getSharePointSummary at h
    split at h
    all_goals try split at h
    all_goals try split at h
    all_goals try split at h
    all_goals try split at h
    all_goals try split at h
    all_goals try split at h
    all_goals first
      | exact Except.noConfusion h
      | (cases h
         refine ⟨fun hk => ?_, fun hk => ?_⟩ <;>
           first
           | rfl
           | exact Bool.noConfusion hk
           | (refine ⟨_, rfl, ?_⟩
              first
              | decide
              | exact appendNeLeft (by decide)
              | exact appendNeLeft (appendNeLeft (by decide))))

/-- C4, witness: the amended invariant at the concrete missing-environment
ServiceNow result. -/
theorem c4_error_consistency_witness :
    errorConsistent snMissingResult :=
  c4_error_consistency.1 { url := none, user := none, pass := none } (.throws "x")
    snMissingResult rfl

/-- C5, counterexample: an open opportunity with probability exactly 30 and
no close date is **included** in the at-risk subset (the source tests
`probability <= 30`), although the claim's "probability below the 30%
threshold or close date within 45 days" is false for it. -/
theorem c5_probability_boundary_counterexample :
    getSalesforceData sfInputB = Sum.inr sfDataB ∧
    sfDataB.atRiskOpportunities.map NormOpp.probability = [30] ∧
    sfDataB.atRiskOpportunities.map NormOpp.closeInDays = [none] ∧
    sfDataB.opportunityCount = 1 ∧
    ¬((30 : ℤ) < 30) :=
  ⟨rfl, rfl, rfl, rfl, by omega⟩

/-- C5, amended: an opportunity enters the at-risk subset iff its probability
is **at most** 30 or its close date is within 45 days; the adapter reports
the count and amount-sum of the **top-10-by-amount truncation** of that
subset (not of the whole subset). -/
theorem c5_at_risk_heuristic (i : SfInput) (d : SfData)
    (h : getSalesforceData i = Sum.inr d) :
    ∃ recs, i.oppQuery = QueryOutcome.rows recs ∧
      (∀ o, o ∈ (recs.map (normOpp i.dateMs i.now)).filter atRiskPred ↔
        (o ∈ recs.map (normOpp i.dateMs i.now) ∧
         (o.probability ≤ 30 ∨ ∃ k, o.closeInDays = some k ∧ k ≤ 45))) ∧
      d.atRiskOpportunities =
        (((recs.map (normOpp i.dateMs i.now)).filter atRiskPred).insertionSort
          byAmountDesc).take 10 ∧
      d.opportunityCount = d.atRiskOpportunities.length ∧
      d.totalAmount = (d.atRiskOpportunities.map NormOpp.amount).sum := by
  obtain ⟨acct, recs, hq, hd⟩ := getSalesforceDataSuccess i d h
  subst hd
  refine ⟨recs, hq, ?_, rfl, rfl, ?_⟩
  · intro o
    rw [List.mem_filter]
    constructor
    · rintro ⟨hm, hp⟩
      exact ⟨hm, (atRiskPredIff o).mp hp⟩
    · rintro ⟨hm, hp⟩
      exact ⟨hm, (atRiskPredIff o).mpr hp⟩
  · show sfTotalAmount (sfAtRisk _) = _
    unfold sfTotalAmount
    rw [foldlAddAmount]
    simp [sfSuccessData]

/-- C5, witness: the amended heuristic at the concrete healthy Salesforce
run. -/
theorem c5_at_risk_heuristic_witness :
    getSalesforceData sfInputW = Sum.inr sfDataW ∧
    (∃ recs, sfInputW.oppQuery = QueryOutcome.rows recs ∧
      (∀ o, o ∈ (recs.map (normOpp sfInputW.dateMs sfInputW.now)).filter atRiskPred ↔
        (o ∈ recs.map (normOpp sfInputW.dateMs sfInputW.now) ∧
         (o.probability ≤ 30 ∨ ∃ k, o.closeInDays = some k ∧ k ≤ 45))) ∧
      sfDataW.atRiskOpportunities =
        (((recs.map (normOpp sfInputW.dateMs sfInputW.now)).filter
            atRiskPred).insertionSort byAmountDesc).take 10 ∧
      sfDataW.opportunityCount = sfDataW.atRiskOpportunities.length ∧
      sfDataW.totalAmount = (sfDataW.atRiskOpportunities.map NormOpp.amount).sum) :=
  ⟨rfl, c5_at_risk_heuristic sfInputW sfDataW rfl⟩

/-- C6, counterexample: `computeRiskLevel` computes **no** risk level on
every input whose `byPriority` holds a `null` element before the matching
entry — its first statement runs the throwing `find` (line 258) — even
though the ticketing source is ok and the P1 entry (count 72 ≥ 50) is
present; instead of an ordinal level the function raises a `TypeError`. -/
theorem c6_throwing_extraction_counterexample :
    okOf (some snBadResult) = true ∧
    byPOf (some snBadResult) =
      [JsVal.vnull, .vobj [("priority", .vstr "1"), ("count", .vnum 72)]] ∧
    computeRiskLevel (some snBadResult) none none = Except.error tyErrNull :=
  ⟨rfl, rfl, rfl⟩

/-- C6, amended: with the ticketing source ok, **whenever the priority-count
extraction does not throw** (no null/undefined element precedes the matching
`byPriority` entry), a priority-1 incident count of at least 50 forces the
"High" risk sentence, and at-risk revenue of at least $250,000 forces a risk
string that is at least "Medium" (the "high-priority count" of the spec's
threshold example is the P1 count — the code's only count threshold at 50);
on a malformed `byPriority` element the function throws instead of returning
any level. -/
theorem c6_risk_thresholds (sn sf sp : Option SourceResult) (p1 : ℤ)
    (h : okOf sn = true) (hp : priorityCount sn "1" = .ok p1) :
    (50 ≤ p1 →
      computeRiskLevel sn sf sp =
        .ok "High — customer experience and SLA commitments are at risk within the next 24 hours.") ∧
    (250000 ≤ revAmountOf sf →
      ∃ r, computeRiskLevel sn sf sp = .ok r ∧ 1 ≤ riskOrdinal r) := by
  have hcr : computeRiskLevel sn sf sp = .ok (computeRiskLevelBody sn sf sp p1) := by
    unfold computeRiskLevel
    rw [hp]
  constructor
  · intro hp1
    have hc : p1 ≥ 50 ∨ totalHPOf sn ≥ 75 := Or.inl hp1
    rw [hcr]
    have hb : computeRiskLevelBody sn sf sp p1 =
        "High — customer experience and SLA commitments are at risk within the next 24 hours." := by
      simp [computeRiskLevelBody, h, hc]
    rw [hb]
  · intro hrev
    rw [hcr]
    refine ⟨computeRiskLevelBody sn sf sp p1, rfl, ?_⟩
    by_cases h2 : p1 ≥ 50 ∨ totalHPOf sn ≥ 75
    · have hb : computeRiskLevelBody sn sf sp p1 =
          "High — customer experience and SLA commitments are at risk within the next 24 hours." := by
        simp [computeRiskLevelBody, h, h2]
      rw [hb]
      decide
    · by_cases h3 : revAmountOf sf ≥ 250000 ∧ (p1 ≥ 20 ∨ totalHPOf sn ≥ 50)
      · have hb : computeRiskLevelBody sn sf sp p1 =
            "High — combined ops disruption + revenue exposure needs executive coordination." := by
          simp [computeRiskLevelBody, h, h2, h3]
        rw [hb]
        decide
      · have h5 : ¬(p1 ≥ 20 ∨ totalHPOf sn ≥ 50) :=
          fun hb => h3 ⟨hrev, hb⟩
        have hb : computeRiskLevelBody sn sf sp p1 =
            "Medium — revenue exposure is material; protect top deals and reduce churn risk." := by
          simp [computeRiskLevelBody, h, h2, h5, hrev]
        rw [hb]
        decide

/-- C6, witness: the spec's scenario numbers (a well-formed `byPriority`,
P1 = 72 ≥ 50, revenue $300,000 ≥ $250,000). -/
theorem c6_risk_thresholds_witness :
    okOf (some snOkResult) = true ∧
    priorityCount (some snOkResult) "1" = Except.ok 72 ∧
    computeRiskLevel (some snOkResult) (some sfBigRevResult) none =
      .ok "High — customer experience and SLA commitments are at risk within the next 24 hours." ∧
    (∃ r, computeRiskLevel (some snOkResult) (some sfBigRevResult) none = .ok r ∧
      1 ≤ riskOrdinal r) := by
  have hth := c6_risk_thresholds (some snOkResult) (some sfBigRevResult) none 72 rfl rfl
  exact ⟨rfl, rfl, hth.1 (by decide), hth.2 (by decide)⟩

/-- C7, counterexample: the document-search adapter is **seeded-first**, not
broad-first.  With a usable seeded answer, the adapter returns `ok:true`
after sending only the seeded prompt — the broad user question is never
issued (its call slot here is a rejection that would crash the adapter if it
were consulted), and the one prompt sent differs from the broad question. -/
theorem c7_seeded_first_counterexample :
    getSharePointSummary q7 (some "https://sp.example/api/chat-sp") seedOkFetch
        (.throws "broad query is never issued") =
      Except.ok (spSeedOkResult, [seededPrompt q7]) ∧
    seededPrompt q7 ≠ q7 :=
  ⟨rfl, by decide⟩

/-- C7, amended: the first query is always the seeded prompt; the broad user
question is issued only after the seeded attempt returns usable JSON whose
answer is empty or a no-match; and an `ok:false` result arises exactly from a
transport/parse failure of the seeded attempt, or — after a seeded no-match —
from a failing or no-match broad attempt. -/
theorem c7_sp_query_order (q : String) (url : Option String) (seedF broadF : FetchOutcome)
    (r : SourceResult) (trace : List String)
    (hurl : envFalsy url = false)
    (h : getSharePointSummary q url seedF broadF = .ok (r, trace)) :
    trace.head? = some (seededPrompt q) ∧
    (trace = [seededPrompt q, q] →
      ∃ rs, fetchJson seedF = .ok rs ∧ rs.ok = true ∧ jsTruthy rs.json = true ∧
        (answerOf rs.json = "" ∨ strTrim (answerOf rs.json) = "NO_MATCH" ∨
         isNoMatchText (answerOf rs.json) = true)) ∧
    (r.ok = false → trace = [seededPrompt q] →
      ∃ rs, fetchJson seedF = .ok rs ∧ (rs.ok = false ∨ jsTruthy rs.json = false)) ∧
    (r.ok = false → trace = [seededPrompt q, q] →
      ∃ rb, fetchJson broadF = .ok rb ∧
        (rb.ok = false ∨ jsTruthy rb.json = false ∨ answerOf rb.json = "" ∨
         isNoMatchText (answerOf rb.json) = true)) := by
  unfold getSharePointSummary at h
  split at h
  · rename_i hc
    rw [hurl] at hc
    exact Bool.noConfusion hc
  · cases hseed : fetchJson seedF with
    | error e =>
      rw [hseed] at h
      exact Except.noConfusion h
    | ok rs =>
      rw [hseed] at h
      dsimp only at h
      by_cases h1 : (!rs.ok || !jsTruthy rs.json) = true
      · rw [if_pos h1] at h
        cases h
        refine ⟨rfl, ?_, ?_, ?_⟩
        · intro habs
          simp at habs
        · intro _ _
          refine ⟨rs, rfl, ?_⟩
          revert h1
          cases rs.ok <;> cases hjs : jsTruthy rs.json <;> simp [hjs]
        · intro _ habs
          simp at habs
      · rw [if_neg h1] at h
        have hok : rs.ok = true ∧ jsTruthy rs.json = true := by
          revert h1
          cases rs.ok <;> cases hjs : jsTruthy rs.json <;> simp [hjs]
        by_cases h2 : (answerOf rs.json == "" || strTrim (answerOf rs.json) == "NO_MATCH" ||
            isNoMatchText (answerOf rs.json)) = true
        · rw [if_pos h2] at h
          have h2p : answerOf rs.json = "" ∨ strTrim (answerOf rs.json) = "NO_MATCH" ∨
              isNoMatchText (answerOf rs.json) = true := by
            simpa [or_assoc] using h2
          cases hbroad : fetchJson broadF with
          | error e =>
            rw [hbroad] at h
            exact Except.noConfusion h
          | ok rb =>
            rw [hbroad] at h
            dsimp only at h
            by_cases h3 : (!rb.ok || !jsTruthy rb.json) = true
            · rw [if_pos h3] at h
              cases h
              refine ⟨rfl, fun _ => ⟨rs, rfl, hok.1, hok.2, h2p⟩, ?_, ?_⟩
              · intro _ habs
                simp at habs
              · intro _ _
                refine ⟨rb, rfl, ?_⟩
                revert h3
                cases rb.ok <;> cases hjs : jsTruthy rb.json <;> simp [hjs]
            · rw [if_neg h3] at h
              by_cases h4 : (answerOf rb.json == "" || isNoMatchText (answerOf rb.json)) = true
              · rw [if_pos h4] at h
                cases h
                refine ⟨rfl, fun _ => ⟨rs, rfl, hok.1, hok.2, h2p⟩, ?_, ?_⟩
                · intro _ habs
                  simp at habs
                · intro _ _
                  refine ⟨rb, rfl, ?_⟩
                  have h4p : answerOf rb.json = "" ∨ isNoMatchText (answerOf rb.json) = true := by
                    simpa using h4
                  rcases h4p with hp | hp
                  · exact Or.inr (Or.inr (Or.inl hp))
                  · exact Or.inr (Or.inr (Or.inr hp))
              · rw [if_neg h4] at h
                cases h
                refine ⟨rfl, fun _ => ⟨rs, rfl, hok.1, hok.2, h2p⟩, ?_, ?_⟩
                · intro hk _
                  exact Bool.noConfusion hk
                · intro hk _
                  exact Bool.noConfusion hk
        · rw [if_neg h2] at h
          cases h
          refine ⟨rfl, ?_, ?_, ?_⟩
          · intro habs
            simp at habs
          · intro hk _
            exact Bool.noConfusion hk
          · intro hk _
            exact Bool.noConfusion hk

/-- C7, witness: the amended order statement at the concrete seeded-success
run. -/
theorem c7_sp_query_order_witness :
    [seededPrompt q7].head? = some (seededPrompt q7) ∧
    ([seededPrompt q7] = [seededPrompt q7, q7] →
      ∃ rs, fetchJson seedOkFetch = .ok rs ∧ rs.ok = true ∧ jsTruthy rs.json = true ∧
        (answerOf rs.json = "" ∨ strTrim (answerOf rs.json) = "NO_MATCH" ∨
         isNoMatchText (answerOf rs.json) = true)) ∧
    (spSeedOkResult.ok = false → [seededPrompt q7] = [seededPrompt q7] →
      ∃ rs, fetchJson seedOkFetch = .ok rs ∧ (rs.ok = false ∨ jsTruthy rs.json = false)) ∧
    (spSeedOkResult.ok = false → [seededPrompt q7] = [seededPrompt q7, q7] →
      ∃ rb, fetchJson (FetchOutcome.throws "broad query is never issued") = .ok rb ∧
        (rb.ok = false ∨ jsTruthy rb.json = false ∨ answerOf rb.json = "" ∨
         isNoMatchText (answerOf rb.json) = true)) :=
  c7_sp_query_order q7 (some "https://sp.example/api/chat-sp") seedOkFetch
    (.throws "broad query is never issued") spSeedOkResult [seededPrompt q7]
    (by decide) rfl

/-- C9, counterexample: the brief builder is **not** total.  On a sources
record whose ServiceNow data has `byPriority = [null, {priority:"1",
count:72}]` — reachable from any 2xx ServiceNow body — the unguarded
`x.priority` read inside the `find` callback (line 279) throws a `TypeError`;
the builder produces no string at all, refuting "returns a non-empty string
without throwing ... every field access is guarded by optional chaining". -/
theorem c9_builder_throws_counterexample :
    buildCanonicalExecutiveAnswer "q" sourcesBad = Except.error tyErrNull := rfl

/-- C9, amended: the brief builder is total and non-empty **except** for the
unguarded `x.priority` reads of the two `find` callbacks (lines 279-280):
whenever those do not throw, it returns a non-empty string bounded below by
the constant title line (every numeric read passes through `safeNumber`, and
every other field access is guarded); and it throws **only** through them —
every `.error` it returns is an error of the `p1` or `p2` extraction. -/
theorem c9_builder_totality :
    (∀ (q : String) (s : Sources) (out : String),
      buildCanonicalExecutiveAnswer q s = .ok out →
      out ≠ "" ∧
      ("EXECUTIVE BRIEF — Today’s Primary Risk & Customer Impact").length ≤ out.length) ∧
    (∀ (q : String) (s : Sources) (e : String),
      buildCanonicalExecutiveAnswer q s = .error e →
      priorityCount s.serviceNow "1" = .error e ∨
      priorityCount s.serviceNow "2" = .error e) := by
  constructor
  · intro q s out h
    exact buildCanonicalOk q s out h
  · intro q s e h
    unfold buildCanonicalExecutiveAnswer at h
    cases h1 : priorityCount s.serviceNow "1" with
    | error e1 =>
      rw [h1] at h
      dsimp only at h
      cases h
      exact Or.inl rfl
    | ok p1 =>
      rw [h1] at h
      dsimp only at h
      cases h2 : priorityCount s.serviceNow "2" with
      | error e2 =>
        rw [h2] at h
        dsimp only at h
        cases h
        exact Or.inr rfl
      | ok p2 =>
        rw [h2] at h
        dsimp only at h
        cases h3 : computeRiskLevel s.serviceNow s.salesforce s.sharePoint with
        | error e3 =>
          exfalso
          unfold computeRiskLevel at h3
          rw [h1] at h3
          exact Except.noConfusion h3
        | ok risk =>
          rw [h3] at h
          dsimp only at h
          exact Except.noConfusion h

/-- C9, witness: both sides of the amended statement — a successful build at
the all-failed sources, and the thrown `TypeError` at the malformed
`byPriority` traced to the `p1` extraction. -/
theorem c9_builder_totality_witness :
    (buildCanonicalExecutiveAnswer "q" sourcesC1 = Except.ok canonicalC1 ∧
     (canonicalC1 ≠ "" ∧
      ("EXECUTIVE BRIEF — Today’s Primary Risk & Customer Impact").length ≤
        canonicalC1.length)) ∧
    (buildCanonicalExecutiveAnswer "q" sourcesBad = Except.error tyErrNull ∧
     (priorityCount sourcesBad.serviceNow "1" = .error tyErrNull ∨
      priorityCount sourcesBad.serviceNow "2" = .error tyErrNull)) :=
  ⟨⟨rfl, c9_builder_totality.1 "q" sourcesC1 canonicalC1 rfl⟩,
   ⟨rfl, c9_builder_totality.2 "q" sourcesBad tyErrNull rfl⟩⟩

/-- C10, confirmed: every successful CRM result is internally consistent —
the reported count equals the length of the listed opportunities, at most 10
are listed, they are sorted by non-increasing amount, and the reported total
equals the sum of exactly the listed amounts. -/
theorem c10_sf_internal_consistency (i : SfInput) (d : SfData)
    (h : getSalesforceData i = Sum.inr d) :
    d.opportunityCount = d.atRiskOpportunities.length ∧
    d.atRiskOpportunities.length ≤ 10 ∧
    (d.atRiskOpportunities.map NormOpp.amount).Sorted (· ≥ ·) ∧
    d.totalAmount = (d.atRiskOpportunities.map NormOpp.amount).sum := by
  obtain ⟨acct, recs, -, hd⟩ := getSalesforceDataSuccess i d h
  subst hd
  exact sfSuccessDataProps acct _

/-- C10, witness: the internal-consistency statement at the concrete healthy
Salesforce run. -/
theorem c10_sf_internal_consistency_witness :
    getSalesforceData sfInputW = Sum.inr sfDataW ∧
    (sfDataW.opportunityCount = sfDataW.atRiskOpportunities.length ∧
     sfDataW.atRiskOpportunities.length ≤ 10 ∧
     (sfDataW.atRiskOpportunities.map NormOpp.amount).Sorted (· ≥ ·) ∧
     sfDataW.totalAmount = (sfDataW.atRiskOpportunities.map NormOpp.amount).sum) :=
  ⟨rfl, c10_sf_internal_consistency sfInputW sfDataW rfl⟩
